import Mathlib

/-!
Verification of `omega_prime_agent.py` (OMEGA-PRIME agent): a shallow
embedding of its pipeline — keyword scoring, SHA-256 fingerprinting,
dedup against a row store, CSV append, notification dispatch and the
per-feed fetch loop — together with theorems settling the specified
properties.  Machine words are `Nat` reduced modulo `2 ^ 32` where the
algorithm wraps; fallible effects (feed fetch, outbound posts) are
parameters returning `Except`.
-/

set_option maxRecDepth 100000

namespace OmegaPrime

/-! ## Strings: substring test, lowering, UTF-8 bytes

Python's `word in text` is a literal substring test; `str.lower()` on the
ASCII keywords and `str.encode()` (UTF-8) are embedded below.
-/

/-- `listPrefixOf p s` : `p` is a prefix of `s` (over characters). -/
def listPrefixOf : List Char → List Char → Bool
  | [], _ => true
  | _ :: _, [] => false
  | a :: as, b :: bs => a == b && listPrefixOf as bs

/-- `listInfixOf p s` : `p` occurs contiguously inside `s`. -/
def listInfixOf (p : List Char) : List Char → Bool
  | [] => p.isEmpty
  | b :: bs => listPrefixOf p (b :: bs) || listInfixOf p bs

/-- `strContains hay needle` embeds Python's `needle in hay`. -/
def strContains (hay needle : String) : Bool :=
  listInfixOf needle.data hay.data

/-- Lower-case one character (ASCII range, as the keyword matching uses). -/
def lowerChar (c : Char) : Char :=
  if 65 ≤ c.toNat && c.toNat ≤ 90 then Char.ofNat (c.toNat + 32) else c

/-- Lower-casing of a string, character-wise (Python `str.lower()`). -/
def strLower (s : String) : String :=
  String.mk (s.data.map lowerChar)

/-- UTF-8 encoding of one character (Python `str.encode()`). -/
def charUtf8 (c : Char) : List Nat :=
  let n := c.toNat
  if n < 128 then [n]
  else if n < 2048 then [192 + n / 64, 128 + n % 64]
  else if n < 65536 then [224 + n / 4096, 128 + n / 64 % 64, 128 + n % 64]
  else [240 + n / 262144, 128 + n / 4096 % 64, 128 + n / 64 % 64, 128 + n % 64]

/-- UTF-8 bytes of a string, as `Nat`s below 256. -/
def utf8Bytes (s : String) : List Nat :=
  s.data.flatMap charUtf8

/-! ## Scorer (`score_item`, lines 54–77)

The fixed keyword table, in the source's insertion order; the loop walks
it, and for each keyword found as a substring of the lower-cased
`title ++ " " ++ summary` adds the weight, appends the tag and appends
`"<keyword>+<weight>"` to the reasons list.
-/

def keywords : List (String × Nat) :=
  [("airdrop", 5), ("testnet", 4), ("quest", 3), ("reward", 2),
   ("bounty", 4), ("grant", 2), ("retrodrop", 5), ("campaign", 2),
   ("earn", 1)]

/-- The `for word, val in keywords.items()` loop, accumulator-passing. -/
def scoreLoop (text : String) (acc : Nat × List String × List String) :
    List (String × Nat) → Nat × List String × List String
  | [] => acc
  | (word, val) :: rest =>
      scoreLoop text
        (if strContains text word then
          (acc.1 + val, acc.2.1 ++ [word], acc.2.2 ++ [word ++ "+" ++ toString val])
        else acc) rest

/-- `score_item(title, summary)` (lines 54–77): score, tags, `;`-joined reason. -/
def score_item (title summary : String) : Nat × List String × String :=
  let text := strLower (title ++ " " ++ summary)
  let r := scoreLoop text (0, [], []) keywords
  (r.1, r.2.1, String.intercalate ";" r.2.2)

/-- Spec-side restatement of the scorer (§4.3 of the spec): filter the
table by substring occurrence, sum the weights, map out tags and reasons.
Used to compare `score_item` against the specified algorithm. -/
def specScore (title summary : String) : Nat × List String × String :=
  let text := strLower (title ++ " " ++ summary)
  let matched := keywords.filter fun kv => strContains text kv.1
  ((matched.map fun kv => kv.2).sum,
   matched.map fun kv => kv.1,
   String.intercalate ";" (matched.map fun kv => kv.1 ++ "+" ++ toString kv.2))

/-! ## SHA-256 (`hash_id`, lines 51–52)

`hashlib.sha256((source + url).encode()).hexdigest()`, embedded from the
FIPS 180-4 algorithm over byte lists, words as `Nat` mod `2 ^ 32`.
-/

/-- Reduce to a 32-bit word. -/
def w32 (x : Nat) : Nat := x % 4294967296

/-- Right-rotation of a 32-bit word by `n`. -/
def rotr (n x : Nat) : Nat :=
  w32 (x / 2 ^ n + x % 2 ^ n * 2 ^ (32 - n))

/-- Bitwise complement within 32 bits. -/
def compl32 (x : Nat) : Nat := Nat.xor x 4294967295

def bsig0 (x : Nat) : Nat := Nat.xor (Nat.xor (rotr 2 x) (rotr 13 x)) (rotr 22 x)

def bsig1 (x : Nat) : Nat := Nat.xor (Nat.xor (rotr 6 x) (rotr 11 x)) (rotr 25 x)

def ssig0 (x : Nat) : Nat := Nat.xor (Nat.xor (rotr 7 x) (rotr 18 x)) (x / 2 ^ 3)

def ssig1 (x : Nat) : Nat := Nat.xor (Nat.xor (rotr 17 x) (rotr 19 x)) (x / 2 ^ 10)

/-- The eight working variables / hash state of SHA-256. -/
structure H8 where
  a : Nat
  b : Nat
  c : Nat
  d : Nat
  e : Nat
  f : Nat
  g : Nat
  h : Nat
  deriving Repr, DecidableEq

/-- Initial hash value H⁽⁰⁾. -/
def initH : H8 :=
  ⟨1779033703, 3144134277, 1013904242, 2773480762,
   1359893119, 2600822924, 528734635, 1541459225⟩

/-- The 64 round constants K. -/
def K256 : List Nat :=
  [1116352408, 1899447441, 3049323471, 3921009573, 961987163, 1508970993,
   2453635748, 2870763221, 3624381080, 310598401, 607225278, 1426881987,
   1925078388, 2162078206, 2614888103, 3248222580, 3835390401, 4022224774,
   264347078, 604807628, 770255983, 1249150122, 1555081692, 1996064986,
   2554220882, 2821834349, 2952996808, 3210313671, 3336571891, 3584528711,
   113926993, 338241895, 666307205, 773529912, 1294757372, 1396182291,
   1695183700, 1986661051, 2177026350, 2456956037, 2730485921, 2820302411,
   3259730800, 3345764771, 3516065817, 3600352804, 4094571909, 275423344,
   430227734, 506948616, 659060556, 883997877, 958139571, 1322822218,
   1537002063, 1747873779, 1955562222, 2024104815, 2227730452, 2361852424,
   2428436474, 2756734187, 3204031479, 3329325298]

/-- Message padding: `0x80`, zeros to 56 mod 64, 8-byte big-endian bit length. -/
def padMsg (msg : List Nat) : List Nat :=
  let bitLen := 8 * msg.length
  let zeros := (119 - msg.length % 64) % 64
  msg ++ [128] ++ List.replicate zeros 0 ++
    ((List.range 8).map fun i => bitLen / 2 ^ (8 * (7 - i)) % 256)

/-- Group bytes into big-endian 32-bit words. -/
def toWords : List Nat → List Nat
  | b0 :: b1 :: b2 :: b3 :: rest =>
      (((b0 * 256 + b1) * 256 + b2) * 256 + b3) :: toWords rest
  | _ => []

/-- Split a word list into 16-word blocks. -/
def blocksOf (ws : List Nat) : List (List Nat) :=
  (List.range (ws.length / 16)).map fun i => ((ws.drop (16 * i)).take 16)

/-- Extend a 16-word block to the 64-word message schedule. -/
def scheduleW (block : List Nat) : List Nat :=
  ((List.range 48).foldl
    (fun (arr : Array Nat) i =>
      arr.push (w32 (ssig1 (arr.getD (i + 14) 0) + arr.getD (i + 9) 0 +
        ssig0 (arr.getD (i + 1) 0) + arr.getD i 0)))
    block.toArray).toList

/-- One round of the compression function. -/
def compressStep (st : H8) (k w : Nat) : H8 :=
  let t1 := w32 (st.h + bsig1 st.e + Nat.xor (Nat.land st.e st.f)
    (Nat.land (compl32 st.e) st.g) + k + w)
  let t2 := w32 (bsig0 st.a + Nat.xor (Nat.xor (Nat.land st.a st.b)
    (Nat.land st.a st.c)) (Nat.land st.b st.c))
  ⟨w32 (t1 + t2), st.a, st.b, st.c, w32 (st.d + t1), st.e, st.f, st.g⟩

/-- Process one 16-word block. -/
def processBlock (hv : H8) (block : List Nat) : H8 :=
  let ws := scheduleW block
  let st := (K256.zip ws).foldl (fun st kw => compressStep st kw.1 kw.2) hv
  ⟨w32 (hv.a + st.a), w32 (hv.b + st.b), w32 (hv.c + st.c), w32 (hv.d + st.d),
   w32 (hv.e + st.e), w32 (hv.f + st.f), w32 (hv.g + st.g), w32 (hv.h + st.h)⟩

/-- SHA-256 of a byte list, as the eight-word state. -/
def sha256words (msg : List Nat) : H8 :=
  (blocksOf (toWords (padMsg msg))).foldl processBlock initH

/-- Lower-case hex character for a nibble. -/
def hexChar (n : Nat) : Char :=
  if n < 10 then Char.ofNat (48 + n) else Char.ofNat (87 + n)

/-- Eight-hex-character big-endian rendering of a 32-bit word. -/
def hexWord (x : Nat) : String :=
  String.mk ((List.range 8).map fun i => hexChar (x / 2 ^ (4 * (7 - i)) % 16))

/-- `hexdigest()`: 64 lower-case hex characters. -/
def sha256hex (msg : List Nat) : String :=
  let hv := sha256words msg
  hexWord hv.a ++ hexWord hv.b ++ hexWord hv.c ++ hexWord hv.d ++
    hexWord hv.e ++ hexWord hv.f ++ hexWord hv.g ++ hexWord hv.h

/-- `hash_id(source, url)` (lines 51–52): hex SHA-256 of the bare
concatenation, no separator. -/
def hash_id (source url : String) : String :=
  sha256hex (utf8Bytes (source ++ url))

/-! ## The pipeline state

A parsed feed entry (`entry.get(k, default)` reads an optional field),
the persisted row, the item dict built per entry, and the run state: the
row store, the CSV file (`none` = the file does not exist), the outbound
calls performed and the console lines printed.
-/

/-- A parsed feed entry; every field may be absent. -/
structure Entry where
  link : Option String
  title : Option String
  summary : Option String
  published : Option String
  deriving Repr, DecidableEq

/-- A row of the `opportunities` table (tags comma-joined on insert). -/
structure Row where
  id : String
  source : String
  title : String
  url : String
  published : String
  summary : String
  score : Nat
  reason : String
  tags : String
  fetched_at : String
  deriving Repr, DecidableEq

/-- The `item` dict built in `fetch_feed` (lines 140–151). -/
structure Item where
  id : String
  source : String
  title : String
  url : String
  published : String
  summary : String
  score : Nat
  reason : String
  tags : List String
  fetched_at : String
  deriving Repr, DecidableEq

/-- Python whitespace for `str.strip()`. -/
def isPySpace (c : Char) : Bool :=
  c == ' ' || c == '\t' || c == '\n' || c == '\r' ||
    c == Char.ofNat 11 || c == Char.ofNat 12

/-- `str.strip()`: drop leading and trailing whitespace. -/
def pyStrip (s : String) : String :=
  String.mk (((s.data.dropWhile isPySpace).reverse.dropWhile isPySpace).reverse)

/-- The tuple bound to the insert (line 84–88): tags are comma-joined. -/
def rowOf (item : Item) : Row :=
  ⟨item.id, item.source, item.title, item.url, item.published, item.summary,
   item.score, item.reason, String.intercalate "," item.tags, item.fetched_at⟩

/-- `save_to_db` (lines 79–89): `INSERT OR IGNORE` keyed on `id` — a no-op
when a row with the same id exists, an append otherwise. -/
def save_to_db (db : List Row) (item : Item) : List Row :=
  if db.any fun r => r.id == item.id then db else db ++ [rowOf item]

/-- The CSV header row (line 96). -/
def csvHeader : List String :=
  ["id", "source", "title", "url", "published", "summary", "score",
   "reason", "tags", "fetched_at"]

/-- The CSV data row for an item (lines 97–101). -/
def csvRow (item : Item) : List String :=
  [item.id, item.source, item.title, item.url, item.published, item.summary,
   toString item.score, item.reason, String.intercalate "," item.tags,
   item.fetched_at]

/-- `save_to_csv` (lines 91–101): append in `"a"` mode; the header is
written first only when the file did not exist. -/
def save_to_csv (csv : Option (List (List String))) (item : Item) :
    Option (List (List String)) :=
  match csv with
  | none => some [csvHeader, csvRow item]
  | some lines => some (lines ++ [csvRow item])

/-! ## Notification (`notify`, lines 103–120) -/

/-- `notify.telegram` config mapping. -/
structure TelegramCfg where
  enabled : Bool
  bot_token : Option String
  chat_id : Option String
  deriving Repr, DecidableEq

/-- `notify.discord` config mapping. -/
structure DiscordCfg where
  enabled : Bool
  webhook_url : Option String
  deriving Repr, DecidableEq

/-- The `NOTIFY` config mapping; either channel may be absent. -/
structure NotifyCfg where
  telegram : Option TelegramCfg
  discord : Option DiscordCfg
  deriving Repr, DecidableEq

/-- The three environment variables the agent reads. -/
structure EnvVars where
  tg_bot_token : Option String
  tg_chat_id : Option String
  discord_webhook_url : Option String
  deriving Repr, DecidableEq

/-- `os.getenv(name, default)`: the variable's value when set, else the
default (which may itself be absent). -/
def getenvD (envVal fallback : Option String) : Option String :=
  match envVal with
  | some v => some v
  | none => fallback

/-- Python truthiness of an optional string: `None` and `""` are falsy. -/
def truthyS : Option String → Bool
  | none => false
  | some s => !(s == "")

/-- An outbound HTTP POST made by `notify`. -/
inductive Call where
  | telegramPost : String → String → String → Call
  | discordPost : String → String → Call
  deriving Repr, DecidableEq

/-- The message text a call carries. -/
def callText : Call → String
  | .telegramPost _ _ t => t
  | .discordPost _ c => c

/-- The message template (line 104). -/
def msgText (item : Item) : String :=
  "💡 New Opportunity: " ++ item.title ++ "\n" ++ item.url ++ "\nScore: " ++
    toString item.score ++ " | Tags: " ++ String.intercalate "," item.tags

/-- The Telegram block of `notify` (lines 107–114). -/
def tgCalls (cfg : NotifyCfg) (env : EnvVars) (text : String) : List Call :=
  match cfg.telegram with
  | none => []
  | some t =>
    if t.enabled then
      let token := getenvD env.tg_bot_token t.bot_token
      let chat_id := getenvD env.tg_chat_id t.chat_id
      if truthyS token && truthyS chat_id then
        [Call.telegramPost
          ("https://api.telegram.org/bot" ++ token.getD "" ++ "/sendMessage")
          (chat_id.getD "") text]
      else []
    else []

/-- The Discord block of `notify` (lines 117–120). -/
def dcCalls (cfg : NotifyCfg) (env : EnvVars) (text : String) : List Call :=
  match cfg.discord with
  | none => []
  | some d =>
    if d.enabled then
      let webhook := getenvD env.discord_webhook_url d.webhook_url
      if truthyS webhook then [Call.discordPost (webhook.getD "") text]
      else []
    else []

/-- `notify(item)` (lines 103–120): the outbound calls made, Telegram
block then Discord block, each channel gated independently. -/
def notify (cfg : NotifyCfg) (env : EnvVars) (item : Item) : List Call :=
  tgCalls cfg env (msgText item) ++ dcCalls cfg env (msgText item)

/-! ## The fetch loop (`fetch_feed` / `run_once`, lines 125–167) -/

/-- The run state: row store, CSV file (`none` = missing), outbound calls
made, console lines printed. -/
structure St where
  db : List Row
  csv : Option (List (List String))
  calls : List Call
  logs : List String
  deriving Repr, DecidableEq

/-- Perform a list of outbound calls through the network oracle `net`,
stopping at the first failure (the failing attempt is still recorded). -/
def runCalls (net : Call → Except String Unit) :
    List Call → List Call × Option String
  | [] => ([], none)
  | c :: cs =>
    match net c with
    | Except.ok _ => let r := runCalls net cs; (c :: r.1, r.2)
    | Except.error e => ([c], some e)

/-- Python `repr` of a list of strings, as the success print shows tags. -/
def pyListRepr (xs : List String) : String :=
  "[" ++ String.intercalate ", " (xs.map fun t => "'" ++ t ++ "'") ++ "]"

/-- The success print (line 159). -/
def successLine (item : Item) : String :=
  "[+] " ++ item.title ++ " (" ++ pyListRepr item.tags ++ ") -> Score " ++
    toString item.score

/-- The error print (line 162). -/
def errLine (url e : String) : String :=
  "[!] Error fetching " ++ url ++ ": " ++ e

/-- The `item` dict for one entry (lines 134–151): fields default to
`""`, title and summary stripped, scored, stamped with `now`. -/
def mkItem (url now : String) (e : Entry) : Item :=
  let title := pyStrip (e.title.getD "")
  let summary := pyStrip (e.summary.getD "")
  let sc := score_item title summary
  ⟨hash_id url (e.link.getD ""), url, title, e.link.getD "",
   e.published.getD "", summary, sc.1, sc.2.2, sc.2.1, now⟩

/-- The body of the entry loop (lines 128–159): dedup check on the
fingerprint, then build, persist (DB then CSV), notify when the score
reaches 3, and print.  The second component is the exception raised by a
failed outbound call, if any. -/
def processEntry (net : Call → Except String Unit) (cfg : NotifyCfg)
    (env : EnvVars) (url now : String) (st : St) (e : Entry) :
    St × Option String :=
  let uid := hash_id url (e.link.getD "")
  if st.db.any fun r => r.id == uid then (st, none)
  else
    let item := mkItem url now e
    let st1 : St :=
      { st with db := save_to_db st.db item, csv := save_to_csv st.csv item }
    if 3 ≤ item.score then
      let r := runCalls net (notify cfg env item)
      let st2 : St := { st1 with calls := st1.calls ++ r.1 }
      match r.2 with
      | some ex => (st2, some ex)
      | none => ({ st2 with logs := st2.logs ++ [successLine item] }, none)
    else ({ st1 with logs := st1.logs ++ [successLine item] }, none)

/-- The entry loop: entries in order, stopping at the first uncaught
exception (there is no per-entry handler). -/
def processEntries (net : Call → Except String Unit) (cfg : NotifyCfg)
    (env : EnvVars) (url now : String) : St → List Entry → St × Option String
  | st, [] => (st, none)
  | st, e :: rest =>
    match processEntry net cfg env url now st e with
    | (st1, some ex) => (st1, some ex)
    | (st1, none) => processEntries net cfg env url now st1 rest

/-- `fetch_feed(url)` (lines 125–162): parse the feed and run the entry
loop, the whole body wrapped in one broad handler that logs the error
with the feed URL.  `fetch` is the external fetch+parse. -/
def fetch_feed (fetch : String → Except String (List Entry))
    (net : Call → Except String Unit) (cfg : NotifyCfg) (env : EnvVars)
    (now : String) (st : St) (url : String) : St :=
  match fetch url with
  | Except.error e => { st with logs := st.logs ++ [errLine url e] }
  | Except.ok entries =>
    match processEntries net cfg env url now st entries with
    | (st1, some ex) => { st1 with logs := st1.logs ++ [errLine url ex] }
    | (st1, none) => st1

/-- `run_once()` (lines 164–167): every configured feed in order. -/
def run_once (fetch : String → Except String (List Entry))
    (net : Call → Except String Unit) (cfg : NotifyCfg) (env : EnvVars)
    (now : String) (feeds : List String) (st : St) : St :=
  feeds.foldl (fetch_feed fetch net cfg env now) st

/-! ## Concrete fixtures used by the witnesses -/

/-- A network oracle on which every outbound call succeeds. -/
def netOk : Call → Except String Unit := fun _ => Except.ok ()

/-- A network oracle on which every outbound call fails. -/
def netFail : Call → Except String Unit := fun _ => Except.error "network error"

/-- Telegram enabled with both credentials present, Discord absent. -/
def cfgT : NotifyCfg := ⟨some ⟨true, some "tok", some "chat"⟩, none⟩

/-- No notification channel configured. -/
def cfg0 : NotifyCfg := ⟨none, none⟩

/-- No environment variable set. -/
def env0 : EnvVars := ⟨none, none, none⟩

/-- The initial run state: empty store, CSV file absent. -/
def st0 : St := ⟨[], none, [], []⟩

/-- An entry whose text scores 2 (`reward`). -/
def eReward : Entry := ⟨some "L1", some "reward", none, none⟩

/-- An entry whose text scores 3 (`quest`). -/
def eQuest : Entry := ⟨some "L2", some "quest", none, none⟩

/-- A link-less entry titled `alpha`. -/
def eAlpha : Entry := ⟨none, some "alpha", none, none⟩

/-- A link-less entry titled `beta`. -/
def eBeta : Entry := ⟨none, some "beta", none, none⟩

/-- Telegram enabled but with an empty bot token, Discord absent. -/
def cfgTB : NotifyCfg := ⟨some ⟨true, some "", some "chat"⟩, none⟩

/-- A fetch on which every feed fails to parse. -/
def fetchFail : String → Except String (List Entry) :=
  fun _ => Except.error "boom"

/-- An arbitrary concrete opportunity. -/
def item0 : Item := ⟨"i", "s", "ti", "u", "p", "sm", 3, "r", ["x"], "f"⟩

/-- How many rows of the store carry a given id. -/
def countId (db : List Row) (uid : String) : Nat :=
  (db.filter fun r => r.id == uid).length

/-- How many CSV lines start with a given id (0 for a missing file). -/
def countCsvId (csv : Option (List (List String))) (uid : String) : Nat :=
  match csv with
  | none => 0
  | some ls => (ls.filter fun l => l.headD "" == uid).length

/-! ## Scorer lemmas and claims -/

/-- The scoring loop, characterised: starting from any accumulator it
adds the weights, tags and reasons of exactly the keywords occurring in
the text, in table order. -/
theorem scoreLoop_spec (text : String) :
    ∀ (ks : List (String × Nat)) (acc : Nat × List String × List String),
    scoreLoop text acc ks =
      (acc.1 + ((ks.filter fun kv => strContains text kv.1).map fun kv => kv.2).sum,
       acc.2.1 ++ ((ks.filter fun kv => strContains text kv.1).map fun kv => kv.1),
       acc.2.2 ++ ((ks.filter fun kv => strContains text kv.1).map
         fun kv => kv.1 ++ "+" ++ toString kv.2)) := by
  intro ks
  induction ks with
  | nil => intro acc; simp [scoreLoop]
  | cons kv rest ih =>
    intro acc
    obtain ⟨word, val⟩ := kv
    by_cases hc : strContains text word = true
    · simp [scoreLoop, hc, ih, List.filter_cons, add_assoc]
    · simp at hc
      simp [scoreLoop, hc, ih, List.filter_cons]

/-- `score_item` computes what §4.3 of the spec states. -/
theorem score_item_eq_specScore (title summary : String) :
    score_item title summary = specScore title summary := by
  unfold score_item specScore
  dsimp only
  rw [scoreLoop_spec]
  simp

/-- C1: `score_item` lower-cases `title ++ " " ++ summary` and walks the
fixed keyword table in order, adding each matched keyword's weight,
appending the keyword to the tags and `"<keyword>+<weight>"` to the
`;`-joined reason; on the spec's example it returns
`(12, ["airdrop","testnet","quest"], "airdrop+5;testnet+4;quest+3")`. -/
theorem c1_score_item_spec :
    (∀ title summary, score_item title summary = specScore title summary) ∧
    keywords = [("airdrop", 5), ("testnet", 4), ("quest", 3), ("reward", 2),
      ("bounty", 4), ("grant", 2), ("retrodrop", 5), ("campaign", 2),
      ("earn", 1)] ∧
    score_item "Airdrop announcement" "join the testnet quest" =
      (12, ["airdrop", "testnet", "quest"], "airdrop+5;testnet+4;quest+3") := by
  refine ⟨score_item_eq_specScore, rfl, by decide⟩

/-- C8: the empty title and summary score 0 with no tags and an empty
reason. -/
theorem c8_score_item_empty : score_item "" "" = (0, [], "") := by decide

/-! ## Fingerprint claims -/

/-- C3: `hash_id` is the hex SHA-256 digest of the separator-free
concatenation; it is pure and deterministic (identical arguments give
identical output), matches SHA-256 on a known vector, and distinguishes
a concrete differing pair. -/
theorem c3_hash_id_sha256 :
    (∀ source url, hash_id source url = sha256hex (utf8Bytes (source ++ url))) ∧
    (∀ source url, hash_id source url = hash_id source url) ∧
    hash_id "" "" =
      "e3b0c44298fc1c149afbf4c8996fb92427ae41e4649b934ca495991b7852b855" ∧
    hash_id "a" "b" ≠ hash_id "a" "c" := by
  refine ⟨fun _ _ => rfl, fun _ _ => rfl, by decide, by decide⟩

/-! ## CSV claims -/

/-- C7: appending to an existing file never writes the header, and any
first append to a missing file writes the header exactly once at the
top; each opportunity contributes exactly one data row. -/
theorem save_to_csv_foldl (items : List Item) :
    ∀ ls : List (List String),
    List.foldl save_to_csv (some ls) items = some (ls ++ items.map csvRow) := by
  induction items with
  | nil => intro ls; simp
  | cons it its ih => intro ls; simp [save_to_csv, ih]

theorem c7_csv_header_once :
    (∀ (ls : List (List String)) (items : List Item),
      List.foldl save_to_csv (some ls) items = some (ls ++ items.map csvRow)) ∧
    (∀ (item : Item) (items : List Item),
      List.foldl save_to_csv none (item :: items) =
        some (csvHeader :: (item :: items).map csvRow)) := by
  constructor
  · intro ls items; exact save_to_csv_foldl items ls
  · intro item items
    have h : List.foldl save_to_csv none (item :: items) =
        List.foldl save_to_csv (some [csvHeader, csvRow item]) items := by
      simp [save_to_csv]
    rw [h, save_to_csv_foldl]
    simp

/-! ## Store and entry-loop lemmas -/

theorem runCalls_netOk (cs : List Call) : runCalls netOk cs = (cs, none) := by
  induction cs with
  | nil => rfl
  | cons c cs ih => simp [runCalls, netOk, ih]

theorem mem_save_to_db (db : List Row) (item : Item) (r : Row) (h : r ∈ db) :
    r ∈ save_to_db db item := by
  unfold save_to_db
  split
  · exact h
  · exact List.mem_append_left _ h

theorem save_to_db_self_any (db : List Row) (item : Item) :
    ((save_to_db db item).any fun r => r.id == item.id) = true := by
  unfold save_to_db
  split
  · next h => exact h
  · simp [List.any_append, rowOf]

theorem any_id_eq_false (db : List Row) (uid : String)
    (h : countId db uid = 0) : (db.any fun r => r.id == uid) = false := by
  unfold countId at h
  rw [List.length_eq_zero, List.filter_eq_nil_iff] at h
  rw [List.any_eq_false]
  exact h

theorem countId_append (a b : List Row) (uid : String) :
    countId (a ++ b) uid = countId a uid + countId b uid := by
  simp [countId, List.filter_append]

theorem processEntry_seen (net : Call → Except String Unit) (cfg : NotifyCfg)
    (env : EnvVars) (url now : String) (st : St) (e : Entry)
    (h : (st.db.any fun r => r.id == hash_id url (e.link.getD "")) = true) :
    processEntry net cfg env url now st e = (st, none) := by
  unfold processEntry
  simp [h]

theorem processEntry_fst_db (net : Call → Except String Unit) (cfg : NotifyCfg)
    (env : EnvVars) (url now : String) (st : St) (e : Entry)
    (h : (st.db.any fun r => r.id == hash_id url (e.link.getD "")) = false) :
    (processEntry net cfg env url now st e).1.db =
      save_to_db st.db (mkItem url now e) := by
  unfold processEntry
  simp only [h, Bool.false_eq_true, if_false]
  split
  · split <;> rfl
  · rfl

theorem processEntry_fst_csv (net : Call → Except String Unit) (cfg : NotifyCfg)
    (env : EnvVars) (url now : String) (st : St) (e : Entry)
    (h : (st.db.any fun r => r.id == hash_id url (e.link.getD "")) = false) :
    (processEntry net cfg env url now st e).1.csv =
      save_to_csv st.csv (mkItem url now e) := by
  unfold processEntry
  simp only [h, Bool.false_eq_true, if_false]
  split
  · split <;> rfl
  · rfl

theorem processEntry_self_any (net : Call → Except String Unit)
    (cfg : NotifyCfg) (env : EnvVars) (url now : String) (st : St) (e : Entry) :
    ((processEntry net cfg env url now st e).1.db.any
      fun r => r.id == hash_id url (e.link.getD "")) = true := by
  by_cases h : (st.db.any fun r => r.id == hash_id url (e.link.getD "")) = true
  · rw [processEntry_seen net cfg env url now st e h]
    exact h
  · rw [Bool.not_eq_true] at h
    rw [processEntry_fst_db net cfg env url now st e h]
    exact save_to_db_self_any st.db (mkItem url now e)

theorem hexWord_length (x : Nat) : (hexWord x).length = 8 := by
  simp [hexWord, String.length]

theorem sha256hex_length (msg : List Nat) : (sha256hex msg).length = 64 := by
  simp [sha256hex, String.length_append, hexWord_length]

theorem hash_id_length (s l : String) : (hash_id s l).length = 64 :=
  sha256hex_length _

theorem id_header_ne_hash (s l : String) : ("id" == hash_id s l) = false := by
  rw [beq_eq_false_iff_ne]
  intro h
  have h2 := congrArg String.length h
  rw [hash_id_length] at h2
  simp [String.length] at h2

theorem callText_tgCalls (cfg : NotifyCfg) (env : EnvVars) (text : String)
    (c : Call) (h : c ∈ tgCalls cfg env text) : callText c = text := by
  unfold tgCalls at h
  split at h
  · simp at h
  · split at h
    · dsimp only at h
      split at h
      · simp at h
        subst h
        rfl
      · simp at h
    · simp at h

theorem callText_dcCalls (cfg : NotifyCfg) (env : EnvVars) (text : String)
    (c : Call) (h : c ∈ dcCalls cfg env text) : callText c = text := by
  unfold dcCalls at h
  split at h
  · simp at h
  · split at h
    · dsimp only at h
      split at h
      · simp at h
        subst h
        rfl
      · simp at h
    · simp at h

theorem callText_notify (cfg : NotifyCfg) (env : EnvVars) (item : Item)
    (c : Call) (h : c ∈ notify cfg env item) : callText c = msgText item := by
  unfold notify at h
  rcases List.mem_append.mp h with h' | h'
  · exact callText_tgCalls cfg env (msgText item) c h'
  · exact callText_dcCalls cfg env (msgText item) c h'

theorem processEntry_netOk_calls (cfg : NotifyCfg) (env : EnvVars)
    (url now : String) (st : St) (e : Entry)
    (h : (st.db.any fun r => r.id == hash_id url (e.link.getD "")) = false) :
    (processEntry netOk cfg env url now st e).1.calls =
      st.calls ++ (if 3 ≤ (mkItem url now e).score
        then notify cfg env (mkItem url now e) else []) := by
  unfold processEntry
  simp only [h, Bool.false_eq_true, if_false]
  split
  · next hs =>
    simp only [runCalls_netOk, if_pos hs]
  · next hs =>
    simp only [if_neg hs]
    simp

theorem countId_rowOf_self (it : Item) : countId [rowOf it] it.id = 1 := by
  simp [countId, rowOf]

/-! ## Dedup claims -/

/-- C2: with the store and CSV initially free of the entry's fingerprint,
processing the entry and then any entry with the same `(source, link)`
pair — in the same pass or in a whole later feed run — leaves exactly one
row with that id in the store and exactly one CSV line starting with it;
the duplicate is skipped with the state unchanged, and the ignore-on-conflict
insert never drops an existing row. -/
theorem c2_dedup_single_row (net : Call → Except String Unit) (cfg : NotifyCfg)
    (env : EnvVars) (url now : String) (st : St) (e e' : Entry)
    (hlink : e'.link.getD "" = e.link.getD "")
    (hdb : countId st.db (hash_id url (e.link.getD "")) = 0)
    (hcsv : countCsvId st.csv (hash_id url (e.link.getD "")) = 0) :
    processEntry net cfg env url now (processEntry net cfg env url now st e).1 e' =
      ((processEntry net cfg env url now st e).1, none) ∧
    countId (processEntry net cfg env url now st e).1.db
      (hash_id url (e.link.getD "")) = 1 ∧
    countCsvId (processEntry net cfg env url now st e).1.csv
      (hash_id url (e.link.getD "")) = 1 ∧
    fetch_feed (fun _ => Except.ok [e']) net cfg env now
      (processEntry net cfg env url now st e).1 url =
      (processEntry net cfg env url now st e).1 ∧
    (∀ (db : List Row) (it : Item) (r : Row), r ∈ db → r ∈ save_to_db db it) := by
  have hany : (st.db.any fun r => r.id == hash_id url (e.link.getD "")) = false :=
    any_id_eq_false _ _ hdb
  have hdbeq := processEntry_fst_db net cfg env url now st e hany
  have hcsveq := processEntry_fst_csv net cfg env url now st e hany
  have hdup : processEntry net cfg env url now
      (processEntry net cfg env url now st e).1 e' =
      ((processEntry net cfg env url now st e).1, none) := by
    apply processEntry_seen
    rw [hlink]
    exact processEntry_self_any net cfg env url now st e
  have hrow : (csvRow (mkItem url now e)).headD "" = (mkItem url now e).id := rfl
  have hid : hash_id url (e.link.getD "") = (mkItem url now e).id := rfl
  refine ⟨hdup, ?_, ?_, ?_, mem_save_to_db⟩
  · rw [hdbeq]
    unfold save_to_db
    have hany' : (st.db.any fun r => r.id == (mkItem url now e).id) = false := hany
    rw [hany']
    simp only [Bool.false_eq_true, if_false]
    rw [countId_append, hdb, hid]
    simpa using countId_rowOf_self (mkItem url now e)
  · rw [hcsveq]
    have h2 : ((csvRow (mkItem url now e)).headD "" ==
        hash_id url (e.link.getD "")) = true := by
      rw [hrow, hid]
      exact beq_self_eq_true _
    cases hc : st.csv with
    | none =>
      have h1 : (csvHeader.headD "" == hash_id url (e.link.getD "")) = false :=
        id_header_ne_hash url (e.link.getD "")
      show (List.filter (fun l => l.headD "" == hash_id url (e.link.getD ""))
        [csvHeader, csvRow (mkItem url now e)]).length = 1
      rw [List.filter_cons, h1, if_neg Bool.false_ne_true, List.filter_cons, h2,
        if_pos rfl, List.filter_nil]
      rfl
    | some ls =>
      rw [hc] at hcsv
      have hcsv' : (List.filter
          (fun l => l.headD "" == hash_id url (e.link.getD "")) ls).length = 0 :=
        hcsv
      show (List.filter (fun l => l.headD "" == hash_id url (e.link.getD ""))
        (ls ++ [csvRow (mkItem url now e)])).length = 1
      rw [List.filter_append, List.length_append, hcsv', List.filter_cons, h2,
        if_pos rfl, List.filter_nil]
      rfl
  · have hpe : processEntries net cfg env url now
        (processEntry net cfg env url now st e).1 [e'] =
        ((processEntry net cfg env url now st e).1, none) := by
      unfold processEntries
      rw [hdup]
      rfl
    unfold fetch_feed
    dsimp only
    rw [hpe]

/-- C2 witness: the dedup property at a concrete entry on the empty
state. -/
theorem c2_dedup_single_row_witness :
    processEntry netOk cfg0 env0 "u" "t"
      (processEntry netOk cfg0 env0 "u" "t" st0 eQuest).1 eQuest =
      ((processEntry netOk cfg0 env0 "u" "t" st0 eQuest).1, none) ∧
    countId (processEntry netOk cfg0 env0 "u" "t" st0 eQuest).1.db
      (hash_id "u" (eQuest.link.getD "")) = 1 ∧
    countCsvId (processEntry netOk cfg0 env0 "u" "t" st0 eQuest).1.csv
      (hash_id "u" (eQuest.link.getD "")) = 1 ∧
    fetch_feed (fun _ => Except.ok [eQuest]) netOk cfg0 env0 "t"
      (processEntry netOk cfg0 env0 "u" "t" st0 eQuest).1 "u" =
      (processEntry netOk cfg0 env0 "u" "t" st0 eQuest).1 ∧
    (∀ (db : List Row) (it : Item) (r : Row), r ∈ db → r ∈ save_to_db db it) :=
  c2_dedup_single_row netOk cfg0 env0 "u" "t" st0 eQuest eQuest rfl rfl rfl

/-- C9: a missing link defaults to `""`, so every link-less entry of a
feed has the fingerprint `sha256hex(source_url)`; after one such entry is
processed, any further link-less entry of the same feed — whatever its
title or summary — is skipped as a duplicate with the state unchanged. -/
theorem c9_linkless_share_fingerprint (net : Call → Except String Unit)
    (cfg : NotifyCfg) (env : EnvVars) (url now : String) (st : St) (e e' : Entry)
    (h : e.link = none) (h' : e'.link = none) :
    hash_id url (e.link.getD "") = sha256hex (utf8Bytes url) ∧
    processEntry net cfg env url now (processEntry net cfg env url now st e).1 e' =
      ((processEntry net cfg env url now st e).1, none) := by
  constructor
  · rw [h]
    show hash_id url "" = _
    unfold hash_id
    rw [String.append_empty]
  · apply processEntry_seen
    rw [h']
    have hs := processEntry_self_any net cfg env url now st e
    rw [h] at hs
    exact hs

/-- C9 witness: two link-less entries with different titles on the empty
state; the second is skipped. -/
theorem c9_linkless_share_fingerprint_witness :
    hash_id "u" (eAlpha.link.getD "") = sha256hex (utf8Bytes "u") ∧
    processEntry netOk cfg0 env0 "u" "t"
      (processEntry netOk cfg0 env0 "u" "t" st0 eAlpha).1 eBeta =
      ((processEntry netOk cfg0 env0 "u" "t" st0 eAlpha).1, none) :=
  c9_linkless_share_fingerprint netOk cfg0 env0 "u" "t" st0 eAlpha eBeta rfl rfl

/-! ## Notification claims -/

/-- C4: for a new entry the outbound calls grow by `notify item` exactly
when the score reaches 3 and by nothing otherwise; every call carries the
fixed-template message, each enabled channel is served independently;
concretely, a score-2 entry produces no call and a score-3 entry produces
the templated Telegram call. -/
theorem c4_notify_iff_threshold (cfg : NotifyCfg) (env : EnvVars)
    (url now : String) (st : St) (e : Entry)
    (h : (st.db.any fun r => r.id == hash_id url (e.link.getD "")) = false) :
    (processEntry netOk cfg env url now st e).1.calls =
      st.calls ++ (if 3 ≤ (mkItem url now e).score
        then notify cfg env (mkItem url now e) else []) ∧
    (∀ c ∈ notify cfg env (mkItem url now e),
      callText c = msgText (mkItem url now e)) ∧
    (∀ item : Item, notify cfg env item =
      tgCalls cfg env (msgText item) ++ dcCalls cfg env (msgText item)) ∧
    (processEntry netOk cfgT env0 "u" "t" st0 eReward).1.calls = [] ∧
    (processEntry netOk cfgT env0 "u" "t" st0 eQuest).1.calls =
      [Call.telegramPost "https://api.telegram.org/bottok/sendMessage" "chat"
        "💡 New Opportunity: quest\nL2\nScore: 3 | Tags: quest"] :=
  ⟨processEntry_netOk_calls cfg env url now st e h,
   fun c hc => callText_notify cfg env _ c hc,
   fun _ => rfl, by decide, by decide⟩

/-- C4 witness: the threshold property at a concrete new entry on the
empty state. -/
theorem c4_notify_iff_threshold_witness :
    (processEntry netOk cfg0 env0 "u" "t" st0 eQuest).1.calls =
      st0.calls ++ (if 3 ≤ (mkItem "u" "t" eQuest).score
        then notify cfg0 env0 (mkItem "u" "t" eQuest) else []) ∧
    (∀ c ∈ notify cfg0 env0 (mkItem "u" "t" eQuest),
      callText c = msgText (mkItem "u" "t" eQuest)) ∧
    (∀ item : Item, notify cfg0 env0 item =
      tgCalls cfg0 env0 (msgText item) ++ dcCalls cfg0 env0 (msgText item)) ∧
    (processEntry netOk cfgT env0 "u" "t" st0 eReward).1.calls = [] ∧
    (processEntry netOk cfgT env0 "u" "t" st0 eQuest).1.calls =
      [Call.telegramPost "https://api.telegram.org/bottok/sendMessage" "chat"
        "💡 New Opportunity: quest\nL2\nScore: 3 | Tags: quest"] :=
  c4_notify_iff_threshold cfg0 env0 "u" "t" st0 eQuest rfl

/-! ## Error-handling claims -/

/-- C5: an exception raised while processing one entry — concretely a
failed notification delivery — stops the entry loop there: the remaining
entries of that feed are never processed, and `fetch_feed`'s broad
handler logs the error for that feed.  The concrete conjunct shows a
notification failure raising on a real entry. -/
theorem c5_entry_failure_aborts_feed (net : Call → Except String Unit)
    (cfg : NotifyCfg) (env : EnvVars) (url now : String) (st st' : St)
    (ex : String) (e : Entry) (rest : List Entry)
    (h : processEntry net cfg env url now st e = (st', some ex)) :
    processEntries net cfg env url now st (e :: rest) = (st', some ex) ∧
    fetch_feed (fun _ => Except.ok (e :: rest)) net cfg env now st url =
      { st' with logs := st'.logs ++ [errLine url ex] } ∧
    (processEntry netFail cfgT env0 "u" "t" st0 eQuest).2 =
      some "network error" := by
  have h1 : processEntries net cfg env url now st (e :: rest) = (st', some ex) := by
    unfold processEntries
    rw [h]
  refine ⟨h1, ?_, by decide⟩
  unfold fetch_feed
  dsimp only
  rw [h1]

/-- C5 witness: a feed of two entries where notification of the first
fails; the second is never processed. -/
theorem c5_entry_failure_aborts_feed_witness :
    processEntries netFail cfgT env0 "u" "t" st0 [eQuest, eReward] =
      ((processEntry netFail cfgT env0 "u" "t" st0 eQuest).1,
        some "network error") ∧
    fetch_feed (fun _ => Except.ok [eQuest, eReward]) netFail cfgT env0 "t"
      st0 "u" =
      { (processEntry netFail cfgT env0 "u" "t" st0 eQuest).1 with
        logs := (processEntry netFail cfgT env0 "u" "t" st0 eQuest).1.logs ++
          [errLine "u" "network error"] } ∧
    (processEntry netFail cfgT env0 "u" "t" st0 eQuest).2 =
      some "network error" :=
  c5_entry_failure_aborts_feed netFail cfgT env0 "u" "t" st0
    (processEntry netFail cfgT env0 "u" "t" st0 eQuest).1 "network error"
    eQuest [eReward]
    (Prod.ext_iff.mpr ⟨rfl, by decide⟩)

/-- C6: a fetch/parse failure for one feed is caught and logged with the
feed URL and the error text, and the run proceeds to the remaining
configured feeds unchanged. -/
theorem c6_feed_isolation (fetch : String → Except String (List Entry))
    (net : Call → Except String Unit) (cfg : NotifyCfg) (env : EnvVars)
    (now url err : String) (st : St) (rest : List String)
    (h : fetch url = Except.error err) :
    fetch_feed fetch net cfg env now st url =
      { st with logs := st.logs ++ [errLine url err] } ∧
    run_once fetch net cfg env now (url :: rest) st =
      run_once fetch net cfg env now rest
        { st with logs := st.logs ++ [errLine url err] } ∧
    errLine url err = "[!] Error fetching " ++ url ++ ": " ++ err := by
  have h1 : fetch_feed fetch net cfg env now st url =
      { st with logs := st.logs ++ [errLine url err] } := by
    unfold fetch_feed
    rw [h]
  refine ⟨h1, ?_, rfl⟩
  unfold run_once
  rw [List.foldl_cons, h1]

/-- C6 witness: a failing fetch on the first of two feeds. -/
theorem c6_feed_isolation_witness :
    fetch_feed fetchFail netOk cfg0 env0 "t" st0 "u" =
      { st0 with logs := st0.logs ++ [errLine "u" "boom"] } ∧
    run_once fetchFail netOk cfg0 env0 "t" ["u", "v"] st0 =
      run_once fetchFail netOk cfg0 env0 "t" ["v"]
        { st0 with logs := st0.logs ++ [errLine "u" "boom"] } ∧
    errLine "u" "boom" = "[!] Error fetching " ++ "u" ++ ": " ++ "boom" :=
  c6_feed_isolation fetchFail netOk cfg0 env0 "t" "u" "boom" st0 ["v"] rfl

/-- C10: a channel whose enable flag is set but whose resolved
credentials are falsy (missing or empty after the env-then-config
resolution) makes no outbound call and raises nothing; the other channel
is still served on its own. -/
theorem c10_falsy_credentials_skip_channel (cfg : NotifyCfg) (env : EnvVars)
    (item : Item) (t : TelegramCfg)
    (ht : cfg.telegram = some t) (he : t.enabled = true)
    (hcred : truthyS (getenvD env.tg_bot_token t.bot_token) = false ∨
      truthyS (getenvD env.tg_chat_id t.chat_id) = false) :
    tgCalls cfg env (msgText item) = [] ∧
    notify cfg env item = dcCalls cfg env (msgText item) ∧
    (∀ (cfg' : NotifyCfg) (env' : EnvVars) (d : DiscordCfg) (it : Item),
      cfg'.discord = some d → d.enabled = true →
      truthyS (getenvD env'.discord_webhook_url d.webhook_url) = false →
      dcCalls cfg' env' (msgText it) = [] ∧
      notify cfg' env' it = tgCalls cfg' env' (msgText it)) := by
  have htg : ∀ text, tgCalls cfg env text = [] := by
    intro text
    unfold tgCalls
    rw [ht]
    dsimp only
    rcases hcred with hc | hc <;> simp [he, hc]
  have hdc : ∀ (cfg' : NotifyCfg) (env' : EnvVars) (d : DiscordCfg),
      cfg'.discord = some d → d.enabled = true →
      truthyS (getenvD env'.discord_webhook_url d.webhook_url) = false →
      ∀ text, dcCalls cfg' env' text = [] := by
    intro cfg' env' d hd he' hw text
    unfold dcCalls
    rw [hd]
    dsimp only
    simp [he', hw]
  refine ⟨htg _, ?_, fun cfg' env' d it hd he' hw =>
    ⟨hdc cfg' env' d hd he' hw _, ?_⟩⟩
  · unfold notify
    rw [htg]
    simp
  · unfold notify
    rw [hdc cfg' env' d hd he' hw]
    simp

/-- C10 witness: Telegram enabled with an empty bot token makes no call;
the Discord side of the statement is instantiated alongside. -/
theorem c10_falsy_credentials_skip_channel_witness :
    tgCalls cfgTB env0 (msgText item0) = [] ∧
    notify cfgTB env0 item0 = dcCalls cfgTB env0 (msgText item0) ∧
    (∀ (cfg' : NotifyCfg) (env' : EnvVars) (d : DiscordCfg) (it : Item),
      cfg'.discord = some d → d.enabled = true →
      truthyS (getenvD env'.discord_webhook_url d.webhook_url) = false →
      dcCalls cfg' env' (msgText it) = [] ∧
      notify cfg' env' it = tgCalls cfg' env' (msgText it)) :=
  c10_falsy_credentials_skip_channel cfgTB env0 item0
    ⟨true, some "", some "chat"⟩ rfl rfl (Or.inl rfl)

end OmegaPrime
